import Mathlib

/-
  Verification of the libadblockplus core against its specification.

  The development shallowly embeds the two source files:
    src/DefaultFileSystem.cpp  (POSIX branch; the synchronous file engine
                                DefaultFileSystemSync and the asynchronous
                                adapter DefaultFileSystem)
    src/JsEngine.cpp           (JsEngine: evaluation, callback bridging,
                                collaborator getters and setters)
  OS-level behaviour (syscalls, errno) is a parameter of the sync engine,
  modelled by the OsState structure; the v8 runtime is a parameter of the
  engine, modelled by the V8Model structure.
-/

namespace LibAdblockPlus

/-- POSIX path separator, the PATH_SEPARATOR of the headers. -/
def PATH_SEPARATOR : Char := '/'

/-- IFileSystem.IOBuffer: a byte sequence exactly sized to content length. -/
abbrev IOBuffer : Type := List Nat

/-- IFileSystem.StatResult; the default constructed value is all-false/zero. -/
structure StatResult where
  «exists» : Bool := false
  isFile : Bool := false
  isDirectory : Bool := false
  lastModified : Int := 0
deriving DecidableEq, Repr

instance : Inhabited StatResult := ⟨{}⟩

/-- Outcome of one call into the synchronous engine, as the adapter's
catch clauses distinguish them: normal return, a thrown std::exception
(carrying its what() text), or a thrown value that is not a
std::exception. -/
inductive SyncOutcome (α : Type) where
  | ok (val : α)
  | stdExn (msg : String)
  | otherExn
deriving DecidableEq, Repr

/-- An outcome that signals an error (a throw of either kind). -/
def SyncOutcome.isThrow {α : Type} : SyncOutcome α → Bool
  | .ok _ => false
  | .stdExn _ => true
  | .otherExn => true

/-- Every std::exception carried by the outcome has a non-empty what()
text. This holds for every exception the concrete sync engine throws. -/
def StdExnNonempty {α : Type} (o : SyncOutcome α) : Prop :=
  ∀ m, o = SyncOutcome.stdExn m → m ≠ ""

instance {α : Type} [DecidableEq α] (o : SyncOutcome α) : Decidable (StdExnNonempty o) := by
  unfold StdExnNonempty
  cases o with
  | ok v => exact isTrue (by intro m h; cases h)
  | stdExn m =>
      by_cases h : m = ""
      · exact isFalse (by intro hc; exact (hc m rfl) h)
      · exact isTrue (by intro m' hm'; cases hm'; exact h)
  | otherExn => exact isTrue (by intro m h; cases h)

/-- Result of the stat(2) syscall as the POSIX branch of
DefaultFileSystemSync::Stat inspects it: failure with errno == ENOENT,
failure with any other errno, or success carrying the mode bits
S_ISREG / S_ISDIR and the st_mtim timestamp. -/
inductive StatSyscall where
  | enoent
  | otherError
  | okEntry (isReg : Bool) (isDir : Bool) (mtimeSec : Int) (mtimeNsec : Nat)
deriving DecidableEq, Repr

/-- The OS-level environment the synchronous engine runs against:
the readable file contents per path (none when opening for reading
fails), whether opening for writing succeeds per path, the rename and
remove syscall failures, the stat syscall result, and the strerror text
of the current errno. -/
structure OsState where
  files : String → Option IOBuffer
  writeOpenOk : String → Bool
  renameFails : String → String → Bool
  removeFails : String → Bool
  statRes : String → StatSyscall
  errnoStr : String

/-- POSIX NormalizePath: file paths are used as they are. -/
def NormalizePath (path : String) : String := path

/-- RuntimeErrorWithErrno: the message is the human-readable text with
the strerror(errno) detail appended in parentheses. -/
def RuntimeErrorWithErrno (errnoStr message : String) : String :=
  message ++ " (" ++ errnoStr ++ ")"

namespace DefaultFileSystemSync

/-- DefaultFileSystemSync::Read: throws RuntimeErrorWithErrno when the
file cannot be opened, else returns the file's exact bytes. -/
def Read (os : OsState) (path : String) : SyncOutcome IOBuffer :=
  match os.files (NormalizePath path) with
  | none => SyncOutcome.stdExn (RuntimeErrorWithErrno os.errnoStr ("Failed to open " ++ path))
  | some data => SyncOutcome.ok data

/-- DefaultFileSystemSync::Write: opens the file for create/truncate and
writes the buffer; the stream is never checked, so no error is ever
signalled. When the open fails nothing is written. Returns the outcome
together with the updated file contents. -/
def Write (os : OsState) (path : String) (data : IOBuffer) :
    SyncOutcome Unit × OsState :=
  if os.writeOpenOk (NormalizePath path) then
    (SyncOutcome.ok (),
     { os with files := fun p => if p = NormalizePath path then some data else os.files p })
  else
    (SyncOutcome.ok (), os)

/-- DefaultFileSystemSync::Move: throws RuntimeErrorWithErrno when
rename(2) fails. -/
def Move (os : OsState) (fromPath toPath : String) : SyncOutcome Unit :=
  if os.renameFails (NormalizePath fromPath) (NormalizePath toPath) then
    SyncOutcome.stdExn
      (RuntimeErrorWithErrno os.errnoStr ("Failed to move " ++ fromPath ++ " to " ++ toPath))
  else
    SyncOutcome.ok ()

/-- DefaultFileSystemSync::Remove: throws RuntimeErrorWithErrno when
remove(2) fails. -/
def Remove (os : OsState) (path : String) : SyncOutcome Unit :=
  if os.removeFails (NormalizePath path) then
    SyncOutcome.stdExn (RuntimeErrorWithErrno os.errnoStr ("Failed to remove " ++ path))
  else
    SyncOutcome.ok ()

/-- DefaultFileSystemSync::Stat, POSIX branch with millisecond
resolution: ENOENT yields the default-constructed StatResult; any other
stat failure throws; success fills the fields from the mode bits and
st_mtim. -/
def Stat (os : OsState) (path : String) : SyncOutcome StatResult :=
  match os.statRes (NormalizePath path) with
  | StatSyscall.enoent => SyncOutcome.ok {}
  | StatSyscall.otherError =>
      SyncOutcome.stdExn (RuntimeErrorWithErrno os.errnoStr ("Unable to stat " ++ path))
  | StatSyscall.okEntry isReg isDir sec nsec =>
      SyncOutcome.ok
        { «exists» := true
          isFile := isReg
          isDirectory := isDir
          lastModified := sec * 1000 + (nsec : Int) / 1000000 }

/-- DefaultFileSystemSync::Resolve: pure function of the stored basePath
and the argument path. -/
def Resolve (basePath path : String) : String :=
  if basePath = "" then
    path
  else
    match (NormalizePath path).data with
    | [] => path
    | c :: _ =>
        if c ≠ PATH_SEPARATOR then
          basePath ++ String.singleton PATH_SEPARATOR ++ path
        else
          path

/-- DefaultFileSystemSync::SetBasePath: stores the path, then looks at
the character under the reverse-begin iterator and drops it when it is
the separator. On the empty string that dereference is out of range
(undefined behaviour), modelled as none. -/
def SetBasePath (path : String) : Option String :=
  match path.data.getLast? with
  | none => none
  | some c => if c = PATH_SEPARATOR then some (path.dropRight 1) else some path

end DefaultFileSystemSync

namespace DefaultFileSystem

/-- Thread body of DefaultFileSystem::Read, as the list of completion
callback invocations (result, error) it performs for one dispatched
request, given the sync engine call's outcome. -/
def Read (path : String) (o : SyncOutcome IOBuffer) : List (IOBuffer × String) :=
  match o with
  | SyncOutcome.ok data => [(data, "")]
  | SyncOutcome.stdExn m => [(([] : List Nat), m)]
  | SyncOutcome.otherExn => [(([] : List Nat), "Unknown error while reading from " ++ path)]

/-- Thread body of DefaultFileSystem::Write: the list of callback
invocations (error only). -/
def Write (path : String) (o : SyncOutcome Unit) : List String :=
  match o with
  | SyncOutcome.ok _ => [""]
  | SyncOutcome.stdExn m => [m]
  | SyncOutcome.otherExn => ["Unknown error while writing to " ++ path]

/-- Thread body of DefaultFileSystem::Move: the list of callback
invocations (error only). -/
def Move (fromPath toPath : String) (o : SyncOutcome Unit) : List String :=
  match o with
  | SyncOutcome.ok _ => [""]
  | SyncOutcome.stdExn m => [m]
  | SyncOutcome.otherExn => ["Unknown error while moving " ++ fromPath ++ " to " ++ toPath]

/-- Thread body of DefaultFileSystem::Remove: the list of callback
invocations (error only). -/
def Remove (path : String) (o : SyncOutcome Unit) : List String :=
  match o with
  | SyncOutcome.ok _ => [""]
  | SyncOutcome.stdExn m => [m]
  | SyncOutcome.otherExn => ["Unknown error while removing " ++ path]

/-- Thread body of DefaultFileSystem::Stat: the list of completion
callback invocations (result, error). -/
def Stat (path : String) (o : SyncOutcome StatResult) : List (StatResult × String) :=
  match o with
  | SyncOutcome.ok result => [(result, "")]
  | SyncOutcome.stdExn m => [(({} : StatResult), m)]
  | SyncOutcome.otherExn => [(({} : StatResult), "Unknown error while calling stat on " ++ path)]

end DefaultFileSystem

/-- A v8 message object accompanying an exception: its script resource
name (the source label under which the script was compiled) and line
number. -/
structure V8Message where
  scriptResourceName : String
  lineNumber : Int
deriving DecidableEq, Repr

/-- A value thrown inside v8, as the TryCatch hands it over: the
stringified exception value and the optional message object. -/
structure V8Exn where
  exceptionText : String
  message : Option V8Message
deriving DecidableEq, Repr

/-- An opaque compiled script handle. -/
abbrev Script : Type := Nat

/-- An opaque handle to a value living in the v8 runtime. -/
abbrev JsVal : Type := Nat

/-- The embedded v8 runtime as the engine sees it: compiling a source
(optionally under a filename) yields a script or a caught exception;
running a script yields a value or a caught exception. -/
structure V8Model where
  compile : String → Option String → Except V8Exn Script
  run : Script → Except V8Exn JsVal

/-- ExceptionToString in JsEngine.cpp: the exception text, followed by
" at name:line" when a message object is present. -/
def ExceptionToString (exception : String) (message : Option V8Message) : String :=
  exception ++
    match message with
    | some m => " at " ++ m.scriptResourceName ++ ":" ++ toString m.lineNumber
    | none => ""

namespace JsEngine

/-- CompileScript in JsEngine.cpp: compiles with the filename when the
filename is non-empty, without it otherwise. -/
def CompileScript (v8 : V8Model) (source filename : String) : Except V8Exn Script :=
  if filename.length ≠ 0 then
    v8.compile source (some filename)
  else
    v8.compile source none

/-- JsEngine::Evaluate: compile, check the TryCatch (a caught exception
becomes a JsError built by ExceptionToString), run, check again, and
return the result value. -/
def Evaluate (v8 : V8Model) (source filename : String) : Except String JsVal :=
  match CompileScript v8 source filename with
  | Except.error e => Except.error (ExceptionToString e.exceptionText e.message)
  | Except.ok script =>
      match v8.run script with
      | Except.error e => Except.error (ExceptionToString e.exceptionText e.message)
      | Except.ok result => Except.ok result

/-- The three collaborator slots of a JsEngine; none models a null
shared_ptr. Collaborator objects are abstracted to identities. -/
structure CollabState where
  fileSystem : Option Nat
  webRequest : Option Nat
  errorCallback : Option Nat
deriving DecidableEq, Repr

/-- The process heap as the callback bridge sees it: which engine
identities are still alive (a weak_ptr to a destroyed engine locks to
null) and the per-engine state sitting at each identity. -/
structure RuntimeHeap where
  alive : Nat → Bool
  engineState : Nat → CollabState

/-- weak_ptr::lock on the engine pointer stored for a callback: the
engine identity when it is still alive, none when it has expired. -/
def lockWeak (heap : RuntimeHeap) (engineId : Nat) : Option Nat :=
  if heap.alive engineId then some engineId else none

/-- The data a NewCallback registration stores alongside the native
function: a weak (non-owning) pointer to the engine, held as the
engine's identity. -/
structure CallbackData where
  weakEngine : Nat
deriving DecidableEq, Repr

/-- JsEngine::NewCallback: stores a weak pointer to this engine as the
function's external data. -/
def NewCallback (selfId : Nat) : CallbackData :=
  { weakEngine := selfId }

/-- JsEngine::FromArguments: locks the stored weak pointer; when the
engine is gone it throws, otherwise it returns the engine. The
engine's own state is read only through the returned identity, never
on the error path. -/
def FromArguments (heap : RuntimeHeap) (data : CallbackData) : Except String Nat :=
  match lockWeak heap data.weakEngine with
  | none => Except.error "Oops, our JsEngine is gone, how did that happen?"
  | some engine => Except.ok engine

/-- Identity of the DefaultFileSystem instance a lazy getter creates. -/
def defaultFileSystemObj : Nat := 0

/-- Identity of the DefaultWebRequest instance a lazy getter creates. -/
def defaultWebRequestObj : Nat := 0

/-- Identity of the DefaultErrorCallback instance a lazy getter creates. -/
def defaultErrorCallbackObj : Nat := 0

/-- JsEngine::GetFileSystem: default-constructs and stores a
DefaultFileSystem when the slot is empty, then returns the stored one. -/
def GetFileSystem (s : CollabState) : Nat × CollabState :=
  match s.fileSystem with
  | none => (defaultFileSystemObj, { s with fileSystem := some defaultFileSystemObj })
  | some f => (f, s)

/-- JsEngine::SetFileSystem: throws on a null value, stores it
otherwise. -/
def SetFileSystem (s : CollabState) (val : Option Nat) : Except String CollabState :=
  match val with
  | none => Except.error "FileSystem cannot be null"
  | some v => Except.ok { s with fileSystem := some v }

/-- JsEngine::GetWebRequest: default-constructs and stores a
DefaultWebRequest when the slot is empty, then returns the stored one. -/
def GetWebRequest (s : CollabState) : Nat × CollabState :=
  match s.webRequest with
  | none => (defaultWebRequestObj, { s with webRequest := some defaultWebRequestObj })
  | some w => (w, s)

/-- JsEngine::SetWebRequest: throws on a null value, stores it
otherwise. -/
def SetWebRequest (s : CollabState) (val : Option Nat) : Except String CollabState :=
  match val with
  | none => Except.error "WebRequest cannot be null"
  | some v => Except.ok { s with webRequest := some v }

/-- JsEngine::GetErrorCallback: default-constructs and stores a
DefaultErrorCallback when the slot is empty, then returns the stored
one. -/
def GetErrorCallback (s : CollabState) : Nat × CollabState :=
  match s.errorCallback with
  | none => (defaultErrorCallbackObj, { s with errorCallback := some defaultErrorCallbackObj })
  | some e => (e, s)

/-- JsEngine::SetErrorCallback: throws on a null value, stores it
otherwise. -/
def SetErrorCallback (s : CollabState) (val : Option Nat) : Except String CollabState :=
  match val with
  | none => Except.error "ErrorCallback cannot be null"
  | some v => Except.ok { s with errorCallback := some v }

end JsEngine

/-- An OS environment in which every path is absent and every syscall
fails: nothing is readable or writable, rename and remove fail, stat
reports ENOENT everywhere. -/
def osEmpty : OsState :=
  { files := fun _ => none
    writeOpenOk := fun _ => false
    renameFails := fun _ _ => true
    removeFails := fun _ => true
    statRes := fun _ => StatSyscall.enoent
    errnoStr := "No such file or directory" }

/-- An OS environment holding one two-byte file at /etc/hosts, with all
write-side syscalls succeeding. -/
def osSample : OsState :=
  { files := fun p => if p = "/etc/hosts" then some [104, 105] else none
    writeOpenOk := fun _ => true
    renameFails := fun _ _ => false
    removeFails := fun _ => false
    statRes := fun p =>
      if p = "/etc/hosts" then StatSyscall.okEntry true false 5 2000000 else StatSyscall.enoent
    errnoStr := "Permission denied" }

/-- A v8 model whose compilation always fails with a syntax error
located at main.js line 3. -/
def v8CompileFail : V8Model :=
  { compile := fun _ _ =>
      Except.error { exceptionText := "SyntaxError: boom", message := some ⟨"main.js", 3⟩ }
    run := fun _ => Except.ok 0 }

/-- A heap on which every engine has been destroyed. -/
def heapAllDead : JsEngine.RuntimeHeap :=
  { alive := fun _ => false
    engineState := fun _ => { fileSystem := none, webRequest := none, errorCallback := none } }

/-- The collaborator state of a freshly created engine: nothing
injected yet. -/
def collabFresh : JsEngine.CollabState :=
  { fileSystem := none, webRequest := none, errorCallback := none }

/-
  Theorems. Helper lemmas on strings come first, then one theorem per
  claim, with witnesses and counterexamples where required.
-/

theorem string_data_append (s t : String) : (s ++ t).data = s.data ++ t.data := by
  cases s
  cases t
  rfl

theorem string_eq_empty_of_data (s : String) (h : s.data = []) : s = "" := by
  cases s with
  | mk d => cases h; rfl

theorem append_ne_empty_left (s t : String) (h : s ≠ "") : s ++ t ≠ "" := by
  intro hc
  have hd := congrArg String.data hc
  rw [string_data_append] at hd
  have hd' : s.data ++ t.data = ([] : List Char) := hd
  exact h (string_eq_empty_of_data s (List.append_eq_nil.mp hd').1)

theorem append_ne_empty_right (s t : String) (h : t ≠ "") : s ++ t ≠ "" := by
  intro hc
  have hd := congrArg String.data hc
  rw [string_data_append] at hd
  have hd' : s.data ++ t.data = ([] : List Char) := hd
  exact h (string_eq_empty_of_data t (List.append_eq_nil.mp hd').2)

theorem runtimeErrorWithErrno_ne_empty (e m : String) : RuntimeErrorWithErrno e m ≠ "" := by
  unfold RuntimeErrorWithErrno
  exact append_ne_empty_right _ _ (by decide)

/-- C3 counterexample: the claim says the separator is inserted only
when the base path lacks a trailing separator. With the reachable base
path "/a/b/" (obtained from SetBasePath "/a/b//") and the relative
path "c", Resolve inserts the separator anyway, yielding "/a/b//c"
rather than the claimed "/a/b/" ++ "c" = "/a/b/c". -/
theorem resolve_trailing_separator_counterexample :
    DefaultFileSystemSync.SetBasePath "/a/b//" = some "/a/b/" ∧
    DefaultFileSystemSync.Resolve "/a/b/" "c" = "/a/b//c" ∧
    ("/a/b//c" : String) ≠ "/a/b/" ++ "c" := by
  refine ⟨by decide, by decide, by decide⟩

/-- C3 amended: Resolve is a pure function of the stored base path and
the argument; a non-empty path that does not start with the separator
is prefixed with basePath and one separator, the separator inserted
unconditionally; an absolute path, an empty path, or any path under an
empty base path is returned unchanged; concretely "/a/b" with "c"
gives "/a/b/c" and "/c" passes through. -/
theorem resolve_amended (basePath path : String) :
    (basePath = "" → DefaultFileSystemSync.Resolve basePath path = path) ∧
    (path = "" → DefaultFileSystemSync.Resolve basePath path = path) ∧
    (path.data.head? = some PATH_SEPARATOR →
      DefaultFileSystemSync.Resolve basePath path = path) ∧
    (basePath ≠ "" → path ≠ "" → path.data.head? ≠ some PATH_SEPARATOR →
      DefaultFileSystemSync.Resolve basePath path =
        basePath ++ String.singleton PATH_SEPARATOR ++ path) ∧
    DefaultFileSystemSync.Resolve "/a/b" "c" = "/a/b/c" ∧
    DefaultFileSystemSync.Resolve "/a/b" "/c" = "/c" := by
  refine ⟨?_, ?_, ?_, ?_, by decide, by decide⟩
  · intro h
    simp [DefaultFileSystemSync.Resolve, h]
  · intro h
    subst h
    unfold DefaultFileSystemSync.Resolve NormalizePath
    split <;> rfl
  · intro hh
    unfold DefaultFileSystemSync.Resolve NormalizePath
    obtain ⟨rest, hd⟩ : ∃ rest, path.data = PATH_SEPARATOR :: rest := by
      cases hdd : path.data with
      | nil => rw [hdd] at hh; cases hh
      | cons c cs =>
          rw [hdd] at hh
          simp only [List.head?_cons, Option.some.injEq] at hh
          exact ⟨cs, by rw [hh]⟩
    rw [hd]
    simp
  · intro hb hp hh
    unfold DefaultFileSystemSync.Resolve NormalizePath
    rw [if_neg hb]
    obtain ⟨c, cs, hd⟩ : ∃ c cs, path.data = c :: cs := by
      cases hdd : path.data with
      | nil => exact absurd (string_eq_empty_of_data path hdd) hp
      | cons c cs => exact ⟨c, cs, rfl⟩
    rw [hd]
    have hc : c ≠ PATH_SEPARATOR := by
      intro he
      exact hh (by rw [hd, he]; rfl)
    simp [hc]

/-- C3 amended witness: with base path "/a/b" the relative path "c"
resolves to the base path, one separator, and the path. -/
theorem resolve_amended_witness :
    DefaultFileSystemSync.Resolve "/a/b" "c" =
      "/a/b" ++ String.singleton PATH_SEPARATOR ++ "c" :=
  (resolve_amended "/a/b" "c").2.2.2.1 (by decide) (by decide) (by decide)

/-- C8: SetBasePath strips exactly one trailing separator when one is
present (and stores the path unchanged otherwise), so SetBasePath
"/a/b/" and SetBasePath "/a/b" store the same base path and Resolve
behaves identically after either. -/
theorem setBasePath_strips_one (path : String) (h : path ≠ "") :
    (∃ r, DefaultFileSystemSync.SetBasePath path = some r ∧
      (path.data.getLast? = some PATH_SEPARATOR → r = path.dropRight 1) ∧
      (path.data.getLast? ≠ some PATH_SEPARATOR → r = path)) ∧
    DefaultFileSystemSync.SetBasePath "/a/b/" = DefaultFileSystemSync.SetBasePath "/a/b" ∧
    (∀ q r₁ r₂, DefaultFileSystemSync.SetBasePath "/a/b/" = some r₁ →
      DefaultFileSystemSync.SetBasePath "/a/b" = some r₂ →
      DefaultFileSystemSync.Resolve r₁ q = DefaultFileSystemSync.Resolve r₂ q) := by
  refine ⟨?_, by decide, ?_⟩
  · unfold DefaultFileSystemSync.SetBasePath
    cases hl : path.data.getLast? with
    | none => exact absurd (string_eq_empty_of_data path (List.getLast?_eq_none_iff.mp hl)) h
    | some c =>
        by_cases hc : c = PATH_SEPARATOR
        · subst hc
          exact ⟨path.dropRight 1, by simp, fun _ => rfl, fun hx => absurd rfl hx⟩
        · exact ⟨path, by simp [hc], fun hx => absurd (Option.some.inj hx) hc, fun _ => rfl⟩
  · intro q r₁ r₂ h₁ h₂
    have e₁ : DefaultFileSystemSync.SetBasePath "/a/b/" = some "/a/b" := by decide
    have e₂ : DefaultFileSystemSync.SetBasePath "/a/b" = some "/a/b" := by decide
    rw [e₁] at h₁
    rw [e₂] at h₂
    rw [← Option.some.inj h₁, ← Option.some.inj h₂]

/-- C8 witness: SetBasePath on "/a/b/" stores "/a/b". -/
theorem setBasePath_strips_one_witness :
    DefaultFileSystemSync.SetBasePath "/a/b/" = some "/a/b" := by
  obtain ⟨⟨r, hr, hsep, _⟩, _, _⟩ := setBasePath_strips_one "/a/b/" (by decide)
  rw [hr, hsep (by decide)]
  decide

/-- C10: the trailing-separator check of SetBasePath dereferences the
reverse-begin iterator, which is out of range exactly on the empty
string; the total embedding guards that access (returning none), and
for every non-empty argument the access is in bounds and the operation
is well defined. -/
theorem setBasePath_empty_guard :
    DefaultFileSystemSync.SetBasePath "" = none ∧
    ∀ path : String, path ≠ "" → (DefaultFileSystemSync.SetBasePath path).isSome = true := by
  refine ⟨by decide, ?_⟩
  intro path h
  unfold DefaultFileSystemSync.SetBasePath
  cases hl : path.data.getLast? with
  | none => exact absurd (string_eq_empty_of_data path (List.getLast?_eq_none_iff.mp hl)) h
  | some c => by_cases hc : c = PATH_SEPARATOR <;> simp [hc]

/-- C10 witness: SetBasePath is well defined on the non-empty path "/a". -/
theorem setBasePath_empty_guard_witness :
    (DefaultFileSystemSync.SetBasePath "/a").isSome = true :=
  setBasePath_empty_guard.2 "/a" (by decide)

/-- C5: synchronous Read throws exactly when the file cannot be opened,
and then its error is the single text "Failed to open " followed by the
path and the parenthesised strerror detail; when the open succeeds it
returns the file's exact bytes. -/
theorem sync_read_exact (os : OsState) (path : String) :
    (os.files path = none →
      DefaultFileSystemSync.Read os path =
        SyncOutcome.stdExn ("Failed to open " ++ path ++ " (" ++ os.errnoStr ++ ")")) ∧
    (∀ data, os.files path = some data →
      DefaultFileSystemSync.Read os path = SyncOutcome.ok data) ∧
    ((DefaultFileSystemSync.Read os path).isThrow = true ↔ os.files path = none) := by
  unfold DefaultFileSystemSync.Read NormalizePath RuntimeErrorWithErrno
  cases hf : os.files path with
  | none =>
      refine ⟨fun _ => rfl, ?_, ?_⟩
      · intro d hd
        exact Option.noConfusion hd
      · simp [SyncOutcome.isThrow]
  | some data =>
      refine ⟨?_, ?_, ?_⟩
      · intro hc
        exact Option.noConfusion hc
      · intro d hd
        rw [Option.some.inj hd]
      · simp [SyncOutcome.isThrow]

/-- C5 witness: reading the present file /etc/hosts yields its exact
bytes, and reading an absent path yields the combined error text. -/
theorem sync_read_exact_witness :
    DefaultFileSystemSync.Read osSample "/etc/hosts" = SyncOutcome.ok [104, 105] ∧
    DefaultFileSystemSync.Read osEmpty "/nope" =
      SyncOutcome.stdExn ("Failed to open " ++ "/nope" ++ " (" ++ osEmpty.errnoStr ++ ")") :=
  ⟨(sync_read_exact osSample "/etc/hosts").2.1 [104, 105] (by decide),
   (sync_read_exact osEmpty "/nope").1 (by decide)⟩

/-- C4: Stat on an absent entry (stat fails with ENOENT) returns the
default all-false/zero StatResult rather than failing, and the
dispatched async Stat then reports that result with an empty error;
Stat throws exactly when the stat syscall fails with an errno other
than ENOENT. -/
theorem sync_stat_absent (os : OsState) (path : String) :
    (os.statRes path = StatSyscall.enoent →
      DefaultFileSystemSync.Stat os path =
        SyncOutcome.ok
          { «exists» := false, isFile := false, isDirectory := false, lastModified := 0 } ∧
      DefaultFileSystem.Stat path (DefaultFileSystemSync.Stat os path) =
        [({ «exists» := false, isFile := false, isDirectory := false, lastModified := 0 }, "")]) ∧
    ((DefaultFileSystemSync.Stat os path).isThrow = true ↔
      os.statRes path = StatSyscall.otherError) := by
  unfold DefaultFileSystemSync.Stat NormalizePath
  cases hs : os.statRes path with
  | enoent =>
      refine ⟨fun _ => ⟨rfl, rfl⟩, ?_⟩
      simp [SyncOutcome.isThrow]
  | otherError =>
      refine ⟨?_, ?_⟩
      · intro hc
        exact StatSyscall.noConfusion hc
      · simp [SyncOutcome.isThrow]
  | okEntry isReg isDir sec nsec =>
      refine ⟨?_, ?_⟩
      · intro hc
        exact StatSyscall.noConfusion hc
      · simp [SyncOutcome.isThrow]

/-- C4 witness: on the empty OS state, stat of /nope is ENOENT and Stat
returns the default StatResult with an empty error at the callback. -/
theorem sync_stat_absent_witness :
    DefaultFileSystemSync.Stat osEmpty "/nope" =
      SyncOutcome.ok
        { «exists» := false, isFile := false, isDirectory := false, lastModified := 0 } :=
  ((sync_stat_absent osEmpty "/nope").1 (by decide)).1

/-- C2 counterexample: with an OS state in which the file at /p cannot
be opened for writing, Write neither signals an error (it returns
normally) nor writes the bytes — refuting the claim that Write fails
whenever an OS-level error prevents opening or writing. -/
theorem sync_write_counterexample :
    (DefaultFileSystemSync.Write osEmpty "/p" [97]).1 = SyncOutcome.ok () ∧
    ((DefaultFileSystemSync.Write osEmpty "/p" [97]).1.isThrow = false) ∧
    (DefaultFileSystemSync.Write osEmpty "/p" [97]).2.files "/p" = none := by
  refine ⟨by decide, by decide, by decide⟩

/-- C2 amended: Write opens the file for create/truncate and, when the
open succeeds, writes exactly the buffer's bytes (empty or not) as the
new contents; it never signals an error — an OS-level open failure is
silently ignored and leaves the file system unchanged. -/
theorem sync_write_amended (os : OsState) (path : String) (data : IOBuffer) :
    (DefaultFileSystemSync.Write os path data).1 = SyncOutcome.ok () ∧
    (os.writeOpenOk path = true →
      (DefaultFileSystemSync.Write os path data).2.files path = some data) ∧
    (os.writeOpenOk path = false →
      (DefaultFileSystemSync.Write os path data).2 = os) := by
  unfold DefaultFileSystemSync.Write NormalizePath
  cases hw : os.writeOpenOk path with
  | true =>
      refine ⟨rfl, fun _ => ?_, fun hc => ?_⟩
      · simp
      · simp at hc
  | false =>
      refine ⟨rfl, fun hc => ?_, fun _ => rfl⟩
      simp at hc

/-- C2 amended witness: under an OS state where every open succeeds,
writing two bytes to /p stores exactly those bytes. -/
theorem sync_write_amended_witness :
    (DefaultFileSystemSync.Write osSample "/p" [1, 2]).2.files "/p" = some [1, 2] :=
  (sync_write_amended osSample "/p" [1, 2]).2.1 (by decide)

/-- C9: for each collaborator slot, the getter default-constructs and
stores a default implementation on first access when none was injected
and thereafter returns the stored one without changing the state; the
setter rejects a null replacement with the slot's configuration error
(producing no new state, so the stored collaborator is unchanged) and
stores any non-null replacement. -/
theorem collaborator_slots (s : JsEngine.CollabState) :
    (s.fileSystem = none →
      JsEngine.GetFileSystem s =
        (JsEngine.defaultFileSystemObj,
         { s with fileSystem := some JsEngine.defaultFileSystemObj })) ∧
    (∀ f, s.fileSystem = some f → JsEngine.GetFileSystem s = (f, s)) ∧
    (JsEngine.GetFileSystem (JsEngine.GetFileSystem s).2 =
      ((JsEngine.GetFileSystem s).1, (JsEngine.GetFileSystem s).2)) ∧
    (JsEngine.SetFileSystem s none = Except.error "FileSystem cannot be null") ∧
    (∀ s', JsEngine.SetFileSystem s none ≠ Except.ok s') ∧
    (∀ v, JsEngine.SetFileSystem s (some v) = Except.ok { s with fileSystem := some v }) ∧
    (s.webRequest = none →
      JsEngine.GetWebRequest s =
        (JsEngine.defaultWebRequestObj,
         { s with webRequest := some JsEngine.defaultWebRequestObj })) ∧
    (∀ w, s.webRequest = some w → JsEngine.GetWebRequest s = (w, s)) ∧
    (JsEngine.GetWebRequest (JsEngine.GetWebRequest s).2 =
      ((JsEngine.GetWebRequest s).1, (JsEngine.GetWebRequest s).2)) ∧
    (JsEngine.SetWebRequest s none = Except.error "WebRequest cannot be null") ∧
    (∀ s', JsEngine.SetWebRequest s none ≠ Except.ok s') ∧
    (∀ v, JsEngine.SetWebRequest s (some v) = Except.ok { s with webRequest := some v }) ∧
    (s.errorCallback = none →
      JsEngine.GetErrorCallback s =
        (JsEngine.defaultErrorCallbackObj,
         { s with errorCallback := some JsEngine.defaultErrorCallbackObj })) ∧
    (∀ e, s.errorCallback = some e → JsEngine.GetErrorCallback s = (e, s)) ∧
    (JsEngine.GetErrorCallback (JsEngine.GetErrorCallback s).2 =
      ((JsEngine.GetErrorCallback s).1, (JsEngine.GetErrorCallback s).2)) ∧
    (JsEngine.SetErrorCallback s none = Except.error "ErrorCallback cannot be null") ∧
    (∀ s', JsEngine.SetErrorCallback s none ≠ Except.ok s') ∧
    (∀ v, JsEngine.SetErrorCallback s (some v) =
      Except.ok { s with errorCallback := some v }) := by
  refine ⟨?_, ?_, ?_, rfl, fun s' hc => Except.noConfusion hc, fun v => rfl,
          ?_, ?_, ?_, rfl, fun s' hc => Except.noConfusion hc, fun v => rfl,
          ?_, ?_, ?_, rfl, fun s' hc => Except.noConfusion hc, fun v => rfl⟩
  · intro h
    simp [JsEngine.GetFileSystem, h]
  · intro f h
    simp [JsEngine.GetFileSystem, h]
  · cases h : s.fileSystem <;> simp [JsEngine.GetFileSystem, h]
  · intro h
    simp [JsEngine.GetWebRequest, h]
  · intro w h
    simp [JsEngine.GetWebRequest, h]
  · cases h : s.webRequest <;> simp [JsEngine.GetWebRequest, h]
  · intro h
    simp [JsEngine.GetErrorCallback, h]
  · intro e h
    simp [JsEngine.GetErrorCallback, h]
  · cases h : s.errorCallback <;> simp [JsEngine.GetErrorCallback, h]

/-- C9 witness: on a fresh engine state the file system getter stores
and returns the default implementation. -/
theorem collaborator_slots_witness :
    JsEngine.GetFileSystem collabFresh =
      (JsEngine.defaultFileSystemObj,
       { collabFresh with fileSystem := some JsEngine.defaultFileSystemObj }) :=
  (collaborator_slots collabFresh).1 rfl

/-- C6: invoking a registered native callback first locks the stored
weak engine reference; when the owning engine is destroyed the
invocation fails with the RuntimeGone error, and that outcome is
independent of whatever engine state sits in the heap (no freed state
is read); only when the engine is alive does FromArguments hand the
engine out, and NewCallback stores exactly the owning engine's
identity as the weak reference. -/
theorem fromArguments_runtime_gone (heap : JsEngine.RuntimeHeap)
    (data : JsEngine.CallbackData) :
    (heap.alive data.weakEngine = false →
      JsEngine.FromArguments heap data =
        Except.error "Oops, our JsEngine is gone, how did that happen?") ∧
    (heap.alive data.weakEngine = true →
      JsEngine.FromArguments heap data = Except.ok data.weakEngine) ∧
    (∀ st : Nat → JsEngine.CollabState,
      JsEngine.FromArguments { heap with engineState := st } data =
        JsEngine.FromArguments heap data) ∧
    (∀ selfId, (JsEngine.NewCallback selfId).weakEngine = selfId) := by
  refine ⟨?_, ?_, ?_, fun selfId => rfl⟩
  · intro h
    simp [JsEngine.FromArguments, JsEngine.lockWeak, h]
  · intro h
    simp [JsEngine.FromArguments, JsEngine.lockWeak, h]
  · intro st
    cases h : heap.alive data.weakEngine <;>
      simp [JsEngine.FromArguments, JsEngine.lockWeak, h]

/-- C6 witness: on a heap where every engine is destroyed, invoking the
callback registered by engine 7 fails with the RuntimeGone message. -/
theorem fromArguments_runtime_gone_witness :
    JsEngine.FromArguments heapAllDead (JsEngine.NewCallback 7) =
      Except.error "Oops, our JsEngine is gone, how did that happen?" :=
  (fromArguments_runtime_gone heapAllDead (JsEngine.NewCallback 7)).1 rfl

/-- C7: Evaluate compiles and then runs the source; a compile-time
exception yields a script error rendered by ExceptionToString and the
script is never run (the result does not depend on the run behaviour);
a runtime exception yields the same rendering; on success the result
value is returned; ExceptionToString combines the thrown value's text
with the source label and line number when a message is available and
is the text alone otherwise. -/
theorem evaluate_error_translation (v8 : V8Model) (source filename : String) :
    (∀ e, JsEngine.CompileScript v8 source filename = Except.error e →
      JsEngine.Evaluate v8 source filename =
        Except.error (ExceptionToString e.exceptionText e.message) ∧
      ∀ run₂, JsEngine.Evaluate { v8 with run := run₂ } source filename =
        JsEngine.Evaluate v8 source filename) ∧
    (∀ s e, JsEngine.CompileScript v8 source filename = Except.ok s →
      v8.run s = Except.error e →
      JsEngine.Evaluate v8 source filename =
        Except.error (ExceptionToString e.exceptionText e.message)) ∧
    (∀ s v, JsEngine.CompileScript v8 source filename = Except.ok s →
      v8.run s = Except.ok v →
      JsEngine.Evaluate v8 source filename = Except.ok v) ∧
    (∀ txt name line, ExceptionToString txt (some ⟨name, line⟩) =
      txt ++ " at " ++ name ++ ":" ++ toString line) ∧
    (∀ txt, ExceptionToString txt none = txt) := by
  refine ⟨?_, ?_, ?_, ?_, ?_⟩
  · intro e h
    have hc : JsEngine.CompileScript { v8 with run := fun s => v8.run s } source filename =
        JsEngine.CompileScript v8 source filename := rfl
    constructor
    · simp [JsEngine.Evaluate, h]
    · intro run₂
      have h₂ : JsEngine.CompileScript { v8 with run := run₂ } source filename =
          Except.error e := h
      simp [JsEngine.Evaluate, h, h₂]
  · intro s e hc hr
    simp [JsEngine.Evaluate, hc, hr]
  · intro s v hc hr
    simp [JsEngine.Evaluate, hc, hr]
  · intro txt name line
    simp [ExceptionToString, String.append_assoc]
  · intro txt
    simp [ExceptionToString]

/-- C7 witness: a v8 model whose compilation throws a syntax error with
a message at main.js line 3 makes Evaluate fail with the combined text,
independently of the run behaviour. -/
theorem evaluate_error_translation_witness :
    JsEngine.Evaluate v8CompileFail "var x = " "main.js" =
      Except.error "SyntaxError: boom at main.js:3" := by
  have h := (evaluate_error_translation v8CompileFail "var x = " "main.js").1
    { exceptionText := "SyntaxError: boom", message := some ⟨"main.js", 3⟩ } (by rfl)
  rw [h.1]
  rfl

/-- C1: every async operation of the adapter invokes its completion
callback exactly once per dispatched request — with the success result
and an empty error, or with the default result and a non-empty error,
never both and never zero times; when the sync engine throws a value
that is not a std::exception, the callback still fires once with the
operation's generic fallback message naming the path(s). The first
five conjuncts ground the non-empty-what() hypotheses: the concrete
sync engine only ever throws RuntimeErrorWithErrno texts, which are
never empty. -/
theorem async_callback_exactly_once (path fromPath toPath : String)
    (oR : SyncOutcome IOBuffer) (oU : SyncOutcome Unit) (oS : SyncOutcome StatResult)
    (hR : StdExnNonempty oR) (hU : StdExnNonempty oU) (hS : StdExnNonempty oS) :
    (∀ os p, StdExnNonempty (DefaultFileSystemSync.Read os p)) ∧
    (∀ os p d, StdExnNonempty (DefaultFileSystemSync.Write os p d).1) ∧
    (∀ os p q, StdExnNonempty (DefaultFileSystemSync.Move os p q)) ∧
    (∀ os p, StdExnNonempty (DefaultFileSystemSync.Remove os p)) ∧
    (∀ os p, StdExnNonempty (DefaultFileSystemSync.Stat os p)) ∧
    ((DefaultFileSystem.Read path oR).length = 1 ∧
     (∀ inv ∈ DefaultFileSystem.Read path oR,
        (inv.2 = "" ∧ oR = SyncOutcome.ok inv.1) ∨
        (inv.2 ≠ "" ∧ inv.1 = ([] : IOBuffer) ∧ oR.isThrow = true)) ∧
     (oR = SyncOutcome.otherExn →
        DefaultFileSystem.Read path oR =
          [(([] : IOBuffer), "Unknown error while reading from " ++ path)])) ∧
    ((DefaultFileSystem.Write path oU).length = 1 ∧
     (∀ e ∈ DefaultFileSystem.Write path oU,
        (e = "" ∧ oU = SyncOutcome.ok ()) ∨ (e ≠ "" ∧ oU.isThrow = true)) ∧
     (oU = SyncOutcome.otherExn →
        DefaultFileSystem.Write path oU = ["Unknown error while writing to " ++ path])) ∧
    ((DefaultFileSystem.Move fromPath toPath oU).length = 1 ∧
     (∀ e ∈ DefaultFileSystem.Move fromPath toPath oU,
        (e = "" ∧ oU = SyncOutcome.ok ()) ∨ (e ≠ "" ∧ oU.isThrow = true)) ∧
     (oU = SyncOutcome.otherExn →
        DefaultFileSystem.Move fromPath toPath oU =
          ["Unknown error while moving " ++ fromPath ++ " to " ++ toPath])) ∧
    ((DefaultFileSystem.Remove path oU).length = 1 ∧
     (∀ e ∈ DefaultFileSystem.Remove path oU,
        (e = "" ∧ oU = SyncOutcome.ok ()) ∨ (e ≠ "" ∧ oU.isThrow = true)) ∧
     (oU = SyncOutcome.otherExn →
        DefaultFileSystem.Remove path oU = ["Unknown error while removing " ++ path])) ∧
    ((DefaultFileSystem.Stat path oS).length = 1 ∧
     (∀ inv ∈ DefaultFileSystem.Stat path oS,
        (inv.2 = "" ∧ oS = SyncOutcome.ok inv.1) ∨
        (inv.2 ≠ "" ∧ inv.1 = ({} : StatResult) ∧ oS.isThrow = true)) ∧
     (oS = SyncOutcome.otherExn →
        DefaultFileSystem.Stat path oS =
          [(({} : StatResult), "Unknown error while calling stat on " ++ path)])) := by
  have gRead : ∀ os p, StdExnNonempty (DefaultFileSystemSync.Read os p) := by
    intro os p m hm
    unfold DefaultFileSystemSync.Read at hm
    cases hf : os.files (NormalizePath p) with
    | none =>
        rw [hf] at hm
        rw [← SyncOutcome.stdExn.inj hm]
        exact runtimeErrorWithErrno_ne_empty _ _
    | some data =>
        rw [hf] at hm
        exact SyncOutcome.noConfusion hm
  have gWrite : ∀ os p d, StdExnNonempty (DefaultFileSystemSync.Write os p d).1 := by
    intro os p d m hm
    unfold DefaultFileSystemSync.Write at hm
    cases hw : os.writeOpenOk (NormalizePath p) <;> rw [hw] at hm <;> simp at hm
  have gMove : ∀ os p q, StdExnNonempty (DefaultFileSystemSync.Move os p q) := by
    intro os p q m hm
    unfold DefaultFileSystemSync.Move at hm
    cases hw : os.renameFails (NormalizePath p) (NormalizePath q) <;> rw [hw] at hm <;>
      simp at hm
    rw [← hm]
    exact runtimeErrorWithErrno_ne_empty _ _
  have gRemove : ∀ os p, StdExnNonempty (DefaultFileSystemSync.Remove os p) := by
    intro os p m hm
    unfold DefaultFileSystemSync.Remove at hm
    cases hw : os.removeFails (NormalizePath p) <;> rw [hw] at hm <;> simp at hm
    rw [← hm]
    exact runtimeErrorWithErrno_ne_empty _ _
  have gStat : ∀ os p, StdExnNonempty (DefaultFileSystemSync.Stat os p) := by
    intro os p m hm
    unfold DefaultFileSystemSync.Stat at hm
    cases hs : os.statRes (NormalizePath p) with
    | enoent =>
        rw [hs] at hm
        exact SyncOutcome.noConfusion hm
    | otherError =>
        rw [hs] at hm
        rw [← SyncOutcome.stdExn.inj hm]
        exact runtimeErrorWithErrno_ne_empty _ _
    | okEntry isReg isDir sec nsec =>
        rw [hs] at hm
        exact SyncOutcome.noConfusion hm
  refine ⟨gRead, gWrite, gMove, gRemove, gStat, ?_, ?_, ?_, ?_, ?_⟩
  · cases oR with
    | ok data =>
        refine ⟨rfl, ?_, fun hc => SyncOutcome.noConfusion hc⟩
        intro inv hinv
        simp [DefaultFileSystem.Read] at hinv
        subst hinv
        exact Or.inl ⟨rfl, rfl⟩
    | stdExn m =>
        refine ⟨rfl, ?_, fun hc => SyncOutcome.noConfusion hc⟩
        intro inv hinv
        simp [DefaultFileSystem.Read] at hinv
        subst hinv
        exact Or.inr ⟨hR m rfl, rfl, rfl⟩
    | otherExn =>
        refine ⟨rfl, ?_, fun _ => rfl⟩
        intro inv hinv
        simp [DefaultFileSystem.Read] at hinv
        subst hinv
        exact Or.inr ⟨append_ne_empty_left _ _ (by decide), rfl, rfl⟩
  · cases oU with
    | ok u =>
        refine ⟨rfl, ?_, fun hc => SyncOutcome.noConfusion hc⟩
        intro e he
        simp [DefaultFileSystem.Write] at he
        subst he
        exact Or.inl ⟨rfl, rfl⟩
    | stdExn m =>
        refine ⟨rfl, ?_, fun hc => SyncOutcome.noConfusion hc⟩
        intro e he
        simp [DefaultFileSystem.Write] at he
        rw [he]
        exact Or.inr ⟨hU m rfl, rfl⟩
    | otherExn =>
        refine ⟨rfl, ?_, fun _ => rfl⟩
        intro e he
        simp [DefaultFileSystem.Write] at he
        subst he
        exact Or.inr ⟨append_ne_empty_left _ _ (by decide), rfl⟩
  · cases oU with
    | ok u =>
        refine ⟨rfl, ?_, fun hc => SyncOutcome.noConfusion hc⟩
        intro e he
        simp [DefaultFileSystem.Move] at he
        subst he
        exact Or.inl ⟨rfl, rfl⟩
    | stdExn m =>
        refine ⟨rfl, ?_, fun hc => SyncOutcome.noConfusion hc⟩
        intro e he
        simp [DefaultFileSystem.Move] at he
        rw [he]
        exact Or.inr ⟨hU m rfl, rfl⟩
    | otherExn =>
        refine ⟨rfl, ?_, fun _ => rfl⟩
        intro e he
        simp [DefaultFileSystem.Move] at he
        subst he
        exact Or.inr ⟨append_ne_empty_left _ _ (append_ne_empty_right _ _ (by decide)), rfl⟩
  · cases oU with
    | ok u =>
        refine ⟨rfl, ?_, fun hc => SyncOutcome.noConfusion hc⟩
        intro e he
        simp [DefaultFileSystem.Remove] at he
        subst he
        exact Or.inl ⟨rfl, rfl⟩
    | stdExn m =>
        refine ⟨rfl, ?_, fun hc => SyncOutcome.noConfusion hc⟩
        intro e he
        simp [DefaultFileSystem.Remove] at he
        rw [he]
        exact Or.inr ⟨hU m rfl, rfl⟩
    | otherExn =>
        refine ⟨rfl, ?_, fun _ => rfl⟩
        intro e he
        simp [DefaultFileSystem.Remove] at he
        subst he
        exact Or.inr ⟨append_ne_empty_left _ _ (by decide), rfl⟩
  · cases oS with
    | ok result =>
        refine ⟨rfl, ?_, fun hc => SyncOutcome.noConfusion hc⟩
        intro inv hinv
        simp [DefaultFileSystem.Stat] at hinv
        subst hinv
        exact Or.inl ⟨rfl, rfl⟩
    | stdExn m =>
        refine ⟨rfl, ?_, fun hc => SyncOutcome.noConfusion hc⟩
        intro inv hinv
        simp [DefaultFileSystem.Stat] at hinv
        subst hinv
        exact Or.inr ⟨hS m rfl, rfl, rfl⟩
    | otherExn =>
        refine ⟨rfl, ?_, fun _ => rfl⟩
        intro inv hinv
        simp [DefaultFileSystem.Stat] at hinv
        subst hinv
        exact Or.inr ⟨append_ne_empty_left _ _ (by decide), rfl, rfl⟩

/-- C1 witness: with a non-std throw the dispatched Read still fires
its callback once with the generic fallback message, and dispatched
Write and Stat each fire their callback exactly once. -/
theorem async_callback_exactly_once_witness :
    DefaultFileSystem.Read "p" SyncOutcome.otherExn =
      [(([] : IOBuffer), "Unknown error while reading from p")] ∧
    (DefaultFileSystem.Write "p" (SyncOutcome.ok ())).length = 1 ∧
    (DefaultFileSystem.Stat "p" (SyncOutcome.stdExn "boom")).length = 1 := by
  have h := async_callback_exactly_once "p" "q" "r"
    SyncOutcome.otherExn (SyncOutcome.ok ()) (SyncOutcome.stdExn "boom")
    (by decide) (by decide) (by decide)
  refine ⟨?_, h.2.2.2.2.2.2.1.1, h.2.2.2.2.2.2.2.2.2.1⟩
  have hr := h.2.2.2.2.2.1.2.2 rfl
  simpa using hr

end LibAdblockPlus
